import Mathlib

/-!
# Verification of the dell-unity-mcp-server tool pipeline

This file gives a shallow embedding, in Lean 4, of the tool-generation and
request-dispatch pipeline of the `dell-unity-mcp-server` repository
(`unity_mcp/tool_generator.py`, `unity_mcp/server.py`,
`unity_mcp/api_client.py`, `unity_mcp/exceptions.py`) and proves or refutes
the frozen claims about it.

Conventions of the embedding:
* Python `dict`s are modelled as insertion-ordered association lists
  `List (String × α)`; assignment `d[k] = v` replaces the value in place when
  the key exists and appends otherwise, exactly like CPython.
* Python runtime values appearing in tool arguments are modelled by the
  inductive type `AVal`; Python truthiness is `AVal.truthy`.
* Exceptions are modelled with `Except`; the distinction the server draws
  between protocol-level errors (raised) and execution-level failures
  (returned with `isError = true`) is the distinction between the `.error`
  and `.ok` constructors of the dispatcher's result.
* `json.dumps` serialization of result/error payloads is not modelled; the
  dictionary that would be serialized is kept structurally.
-/

namespace UnityMCP

/-- Python runtime values that can appear in tool-call arguments,
query parameters, API responses and error-detail dictionaries. -/
inductive AVal where
  | none
  | str (s : String)
  | num (n : Int)
  | bool (b : Bool)
  | list (xvs : List AVal)
  | dict (kvs : List (String × AVal))
deriving Repr

/-- Python truthiness (`bool(x)`) for modelled values: `None`, empty strings,
zero, `False` and empty containers are falsy. -/
def AVal.truthy : AVal → Bool
  | .none => false
  | .str s => !s.isEmpty
  | .num n => n != 0
  | .bool b => b
  | .list xvs => !xvs.isEmpty
  | .dict kvs => !kvs.isEmpty

/-- `x is None` for modelled values. -/
def AVal.isNone : AVal → Bool
  | .none => true
  | _ => false

/-- `isinstance(x, dict)` for modelled values. -/
def AVal.isDict : AVal → Bool
  | .dict _ => true
  | _ => false

/-- Python dict assignment `d[k] = v` on an insertion-ordered association
list: replace the value in place when the key exists, append otherwise. -/
def dset {α : Type} : List (String × α) → String → α → List (String × α)
  | [], k, v => [(k, v)]
  | (k', v') :: rest, k, v =>
      if k' == k then (k, v) :: rest else (k', v') :: dset rest k v

/-- Python `d.update(src)`: assign every binding of `src` into `d`,
in the insertion order of `src`. -/
def dupdate {α : Type} (d src : List (String × α)) : List (String × α) :=
  src.foldl (fun acc p => dset acc p.fst p.snd) d

/-- The keys of a modelled dict, in order. -/
def dkeys {α : Type} (d : List (String × α)) : List String :=
  d.map Prod.fst

/-! ## `unity_mcp/server.py`: parameter filtering (`_build_api_params`) -/

/-- `EXCLUDED_PARAMS` from `unity_mcp/server.py`: the fixed denylist of
credential and MCP/n8n metadata keys never forwarded to the Unity API. -/
def EXCLUDED_PARAMS : List String :=
  [ "host", "username", "password",
    "queryParams",
    "sessionId", "session_id", "action", "chatInput", "chat_input",
    "toolCallId", "tool_call_id", "tool", "toolName", "tool_name",
    "requestId", "request_id", "messageId", "message_id" ]

/-- One iteration of the copy loop of `_build_api_params`: keep the binding
when its key is not in `EXCLUDED_PARAMS` and its value is not `None`. -/
def apiParamStep (acc : List (String × AVal)) (p : String × AVal) :
    List (String × AVal) :=
  if !(EXCLUDED_PARAMS.contains p.fst) && !p.snd.isNone then
    dset acc p.fst p.snd
  else acc

/-- The first phase of `UnityMCPServer._build_api_params`: copy every
argument whose key is not in `EXCLUDED_PARAMS` and whose value is not
`None` into the parameter dict, in argument order. -/
def buildApiParamsLoop (args : List (String × AVal)) : List (String × AVal) :=
  args.foldl apiParamStep []

/-- `UnityMCPServer._build_api_params`: denylist-filter the arguments, then
merge the entries of a dict-valued `queryParams` argument on top
(`api_params.update(query_params)`); a non-dict `queryParams` is ignored. -/
def buildApiParams (args : List (String × AVal)) : List (String × AVal) :=
  let queryParams := (List.lookup "queryParams" args).getD (AVal.dict [])
  let base := buildApiParamsLoop args
  match queryParams with
  | .dict kvs => dupdate base kvs
  | _ => base

/-! ## `unity_mcp/tool_generator.py`: data model -/

/-- A primitive value appearing in OpenAPI `enum` lists (`str(e)` renders it). -/
inductive PyVal where
  | s (v : String)
  | i (v : Int)
  | b (v : Bool)
deriving Repr, DecidableEq

/-- Python `str()` of an enum value. -/
def pyStrV : PyVal → String
  | .s v => v
  | .i v => toString v
  | .b v => if v then "True" else "False"

/-- One entry of an OpenAPI operation's `parameters` list; absent keys are
`none` / defaults, matching the `.get` accesses in the source. -/
structure Param where
  name : Option String := none
  loc : Option String := none
  required : Bool := false
  type : Option String := none
  descr : String := ""
  enum : Option (List PyVal) := none
deriving Repr, DecidableEq

/-- An OpenAPI operation object (the fields the generator reads). -/
structure Operation where
  operationId : Option String := none
  summary : Option String := none
  descr : Option String := none
  parameters : List Param := []
deriving Repr, DecidableEq

/-- A path item: HTTP method (lowercase) → operation. -/
abbrev PathItem := List (String × Operation)

/-- A property of a schema definition (the fields `_get_key_fields` reads:
`description`, `enum`, `$ref`). -/
structure PropDef where
  descr : String := ""
  enum : Option (List PyVal) := none
  ref : String := ""
deriving Repr, DecidableEq

/-- A schema definition under `definitions` / `components.schemas`.
`otherKeys` records whether the underlying dict has keys beyond these,
so that Python dict truthiness is preserved. -/
structure SchemaDef where
  properties : List (String × PropDef) := []
  enum : List PyVal := []
  otherKeys : Bool := false
deriving Repr, DecidableEq

/-- Python truthiness of the schema-definition dict. -/
def SchemaDef.truthy (d : SchemaDef) : Bool :=
  !d.properties.isEmpty || !d.enum.isEmpty || d.otherKeys

/-- The parsed OpenAPI specification (the parts the generator and the
dispatcher read). -/
structure Spec where
  paths : List (String × PathItem) := []
  componentsSchemas : List (String × SchemaDef) := []
  definitions : List (String × SchemaDef) := []
deriving Repr

/-- `self.spec.get("components", \x7b\x7d).get("schemas", \x7b\x7d) or
self.spec.get("definitions", \x7b\x7d)`: OpenAPI 3.0 schemas when non-empty,
else Swagger 2.0 definitions. -/
def Spec.schemaDefinitions (s : Spec) : List (String × SchemaDef) :=
  if s.componentsSchemas.isEmpty then s.definitions else s.componentsSchemas

/-- A generated tool-descriptor input-schema property. `addProps` models the
`additionalProperties` sub-schema placed on the injected `queryParams`. -/
structure PropOut where
  type : String
  descr : String
  enum : Option (List PyVal) := none
  addProps : Option String := none
deriving Repr, DecidableEq

/-- A generated tool-descriptor input schema. -/
structure InputSchema where
  type : String := "object"
  properties : List (String × PropOut)
  required : List String
  additionalProperties : Bool := true
deriving Repr, DecidableEq

/-- A generated tool descriptor. -/
structure Tool where
  name : String
  descr : String
  inputSchema : InputSchema
deriving Repr, DecidableEq

/-- `a or b` for an optional string `a`: Python treats `None` and `""` as
falsy. -/
def pyOrStr (o : Option String) (d : String) : String :=
  match o with
  | some s => if s.isEmpty then d else s
  | none => d

/-- Truthiness normalization of an `Optional[str]`: `none` for falsy. -/
def pyOptStr (o : Option String) : Option String :=
  match o with
  | some s => if s.isEmpty then none else some s
  | none => none

/-! ## `unity_mcp/tool_generator.py`: functions -/

/-! Character-list implementations of the Python string primitives the
source uses, written by structural recursion so that concrete runs of the
embedding reduce inside the kernel. -/

/-- `s.split(sep)` for a one-character separator, on character lists. -/
def chSplitSep (sep : Char) : List Char → List (List Char)
  | [] => [[]]
  | c :: rest =>
    match chSplitSep sep rest with
    | [] => [[]]
    | h :: t => if c = sep then [] :: h :: t else (c :: h) :: t

/-- `s.split(sep)` for a one-character separator. -/
def pySplitChar (sep : Char) (s : String) : List String :=
  (chSplitSep sep s.data).map String.mk

/-- Whether the first list starts with the second. -/
def chStartsWith : List Char → List Char → Bool
  | _, [] => true
  | [], _ :: _ => false
  | c :: cs, p :: ps => c = p && chStartsWith cs ps

/-- `s.startswith(pre)`. -/
def pyStartsWith (s pre : String) : Bool :=
  chStartsWith s.data pre.data

/-- `s.endswith(suf)`. -/
def pyEndsWith (s suf : String) : Bool :=
  chStartsWith s.data.reverse suf.data.reverse

/-- `sub in s` (substring containment). -/
def chContainsSub (needle : List Char) : List Char → Bool
  | [] => needle.isEmpty
  | c :: rest => chStartsWith (c :: rest) needle || chContainsSub needle rest

/-- `sub in s`. -/
def pyContains (s sub : String) : Bool :=
  chContainsSub sub.data s.data

/-- `s.lower()`. -/
def pyLower (s : String) : String :=
  ⟨s.data.map Char.toLower⟩

/-- `s.upper()`. -/
def pyUpper (s : String) : String :=
  ⟨s.data.map Char.toUpper⟩

/-- `s.capitalize()`: first character upper-cased, the rest lower-cased. -/
def pyCapitalize (s : String) : String :=
  match s.data with
  | [] => ⟨[]⟩
  | c :: rest => ⟨c.toUpper :: rest.map Char.toLower⟩

/-- Lexicographic (code-point) order on strings, as Python compares them. -/
def chLe : List Char → List Char → Bool
  | [], _ => true
  | _ :: _, [] => false
  | a :: as, b :: bs => if a = b then chLe as bs else decide (a < b)

/-- Insert into an ascending list (before the first element not below). -/
def insertSorted (x : String) : List String → List String
  | [] => [x]
  | y :: rest =>
    if chLe x.data y.data then x :: y :: rest else y :: insertSorted x rest

/-- Python `sorted()` on strings: ascending code-point order (insertion
sort; extensionally the same ordering). -/
def pySorted (l : List String) : List String :=
  l.foldr insertSorted []

/-- `MAX_FIELDS_DISPLAY` from the source. -/
def MAX_FIELDS_DISPLAY : Nat := 20
/-- `MAX_KEY_FIELDS` from the source. -/
def MAX_KEY_FIELDS : Nat := 10
/-- `MAX_ENUM_VALUES` from the source. -/
def MAX_ENUM_VALUES : Nat := 5

/-- `ToolGenerator._convert_openapi_type`. -/
def convertOpenapiType (t : String) : String :=
  if t == "integer" then "number"
  else if t == "number" then "number"
  else if t == "string" then "string"
  else if t == "boolean" then "boolean"
  else if t == "array" then "array"
  else if t == "object" then "object"
  else "string"

/-- `ToolGenerator._get_resource_name_from_path`: segment after `types`,
else non-parameter segment after `instances`, else the first segment left
after stripping generic tokens and parameters. -/
def getResourceNameFromPath (path : String) : String :=
  let parts := pySplitChar '/' path
  let fallback :=
    let filtered := parts.filter (fun p =>
      !p.isEmpty && !(pyStartsWith p "\x7b") &&
      !(["api", "types", "instances", "action"].contains p))
    filtered.headD ""
  let fromInstances :=
    if parts.contains "instances" then
      let instIdx := parts.indexOf "instances"
      if instIdx + 1 < parts.length then
        let resource := parts.getD (instIdx + 1) ""
        if !(pyStartsWith resource "\x7b") then resource else fallback
      else fallback
    else fallback
  if parts.contains "types" then
    let typeIdx := parts.indexOf "types"
    if typeIdx + 1 < parts.length then parts.getD (typeIdx + 1) ""
    else fromInstances
  else fromInstances

/-- Replace non-alphanumeric characters of a path segment by `_`
(the cleaning step of `_generate_tool_name_from_path`). -/
def pyCleanSegment (p : String) : String :=
  ⟨p.data.map (fun c => if c.isAlphanum then c else '_')⟩

/-- `ToolGenerator._generate_tool_name_from_path`: camel-case
`method` + the non-parameter, non-`api` path segments (Python
`str.capitalize` lower-cases the tail of each later segment). -/
def generateToolNameFromPath (path method : String) : String :=
  let parts := pySplitChar '/' path
  let meaningful := parts.filter (fun p =>
    !p.isEmpty && !(pyStartsWith p "\x7b") && p != "api")
  match method :: meaningful with
  | [] => ""
  | h :: t =>
    pyLower (pyCleanSegment h) ++
      String.join (t.map (fun p => pyCapitalize (pyCleanSegment p)))

/-- The `self.tool_names` registry: base name → use count. -/
abbrev Registry := List (String × Nat)

/-- `ToolGenerator._make_unique_name`: on a repeated base name, bump its
count and append a suffix built from the last one or two non-parameter path
segments, or the bare count when the path has fewer than two such segments;
the suffixed name itself is not recorded in the registry. -/
def makeUniqueName (toolName path : String) (reg : Registry) :
    String × Registry :=
  match List.lookup toolName reg with
  | some c =>
    let count := c + 1
    let reg := dset reg toolName count
    let pathParts := (pySplitChar '/' path).filter (fun p =>
      !p.isEmpty && !(pyStartsWith p "\x7b"))
    let pathSuffix :=
      if pathParts.length ≥ 2 then
        String.intercalate "_" (pathParts.drop (pathParts.length - 2))
      else toString count
    (toolName ++ "_" ++ pathSuffix, reg)
  | none => (toolName, dset reg toolName 0)

/-- `definitions.get(k, \x7b\x7d)`. -/
def defLookup (defs : List (String × SchemaDef)) (k : String) : SchemaDef :=
  (List.lookup k defs).getD {}

/-- `definitions.get(r, \x7b\x7d) or definitions.get(r + "_instance", \x7b\x7d)
or definitions.get(r + "Instance", \x7b\x7d)`: first truthy lookup, else the
last (falsy) one. -/
def resolveInstanceDef (defs : List (String × SchemaDef))
    (resourceName : String) : SchemaDef :=
  let d1 := defLookup defs resourceName
  let d2 := defLookup defs (resourceName ++ "_instance")
  let d3 := defLookup defs (resourceName ++ "Instance")
  if d1.truthy then d1 else if d2.truthy then d2 else d3

/-- The `priority_fields` list of `_get_key_fields`. -/
def priorityFields : List String :=
  [ "id", "name", "health", "state", "status", "severity", "type",
    "description", "message", "isAcknowledged", "resource", "timestamp",
    "sizeTotal", "sizeUsed", "sizeFree", "pool", "storageResource" ]

/-- The ` (values: ...)` annotation of a key field. -/
def enumValuesNote (es : List PyVal) : String :=
  " (values: " ++
    String.intercalate ", " ((es.take MAX_ENUM_VALUES).map pyStrV) ++ ")"

/-- `ToolGenerator._get_key_fields`: the curated key-field lines, capped at
`MAX_KEY_FIELDS`, each with its truncated description and enum values
(inline or through one `$ref` whose name contains `Enum`). -/
def getKeyFields (defs : List (String × SchemaDef))
    (properties : List (String × PropDef)) : String :=
  let lines := priorityFields.foldl
    (fun (lines : List String) field =>
      match List.lookup field properties with
      | some prop =>
        let d := prop.descr.take 80
        let fieldInfo := "- " ++ field
        let fieldInfo := if !d.isEmpty then fieldInfo ++ ": " ++ d else fieldInfo
        let enumTruthy := match prop.enum with
          | some es => !es.isEmpty
          | none => false
        let fieldInfo :=
          if enumTruthy then
            fieldInfo ++ enumValuesNote (prop.enum.getD [])
          else if pyContains prop.ref "Enum" then
            let enumName := (pySplitChar '/' prop.ref).getLastD ""
            let enumValues := (defLookup defs enumName).enum
            if !enumValues.isEmpty then fieldInfo ++ enumValuesNote enumValues
            else fieldInfo
          else fieldInfo
        lines ++ [fieldInfo]
      | none => lines)
    []
  String.intercalate "\n" (lines.take MAX_KEY_FIELDS)

/-- `ToolGenerator._get_filter_examples`: fixed per-resource filter syntax
examples, with a generic health example when the schema exposes a
health/state field. -/
def getFilterExamples (resourceName : String)
    (properties : List (String × PropDef)) : String :=
  let examples : List String :=
    if resourceName == "alert" then
      [ "\x7b\"filter\": \"isAcknowledged eq false\"\x7d - Unacknowledged alerts only",
        "\x7b\"filter\": \"severity eq 4\"\x7d - Critical severity only",
        "\x7b\"filter\": \"state eq 0\"\x7d - Active alerts only" ]
    else if resourceName == "lun" then
      [ "\x7b\"filter\": \"name lk \\\"*prod*\\\"\"\x7d - LUNs with prod in name",
        "\x7b\"filter\": \"pool.id eq \\\"pool_1\\\"\"\x7d - LUNs in specific pool" ]
    else if resourceName == "storagePool" || resourceName == "pool" then
      [ "\x7b\"filter\": \"health.value eq 5\"\x7d - Healthy pools only" ]
    else if resourceName == "filesystem" then
      [ "\x7b\"filter\": \"name lk \\\"*share*\\\"\"\x7d - Filesystems with share in name" ]
    else if resourceName == "nasServer" then
      [ "\x7b\"filter\": \"health.value eq 5\"\x7d - Healthy NAS servers" ]
    else if (List.lookup "health" properties).isSome ||
        (List.lookup "state" properties).isSome then
      [ "\x7b\"filter\": \"health.value eq 5\"\x7d - Filter by health status" ]
    else []
  if examples.isEmpty then ""
  else String.intercalate "\n" (examples.map (fun ex => "- " ++ ex))

/-- Sorted property names, capped for display. -/
def sortedFieldNames (properties : List (String × PropDef)) : List String :=
  pySorted (dkeys properties)

/-- `ToolGenerator._build_enhanced_description`: append available fields,
key fields and filter examples to the base description of a collection
query whose resource schema is resolvable. -/
def buildEnhancedDescription (defs : List (String × SchemaDef))
    (baseDescription resourceName : String) (isCollectionQuery : Bool) :
    String :=
  let instanceDef := resolveInstanceDef defs resourceName
  let properties := instanceDef.properties
  if !properties.isEmpty && isCollectionQuery then
    let fieldNames := sortedFieldNames properties
    let fieldsSummary := String.intercalate ", " (fieldNames.take MAX_FIELDS_DISPLAY)
    let fieldsSummary :=
      if fieldNames.length > MAX_FIELDS_DISPLAY then
        fieldsSummary ++ ", ... (" ++ toString fieldNames.length ++ " total fields)"
      else fieldsSummary
    let d := baseDescription ++
      "\n\nAvailable fields for \x27fields\x27 parameter: " ++ fieldsSummary
    let keyFields := getKeyFields defs properties
    let d := if !keyFields.isEmpty then d ++ "\n\nKey fields:\n" ++ keyFields else d
    let filterExamples := getFilterExamples resourceName properties
    if !filterExamples.isEmpty then
      d ++ "\n\nFilter examples (queryParams):\n" ++ filterExamples
    else d
  else baseDescription

/-- The three credential properties every input schema starts from. -/
def credentialProperties : List (String × PropOut) :=
  [ ("host", { type := "string", descr := "Unity host (e.g., unity.example.com)" }),
    ("username", { type := "string", descr := "Unity username" }),
    ("password", { type := "string", descr := "Unity password" }) ]

/-- One iteration of the parameter loop of `_generate_input_schema`:
skip parameters with a falsy name or a position other than query/path;
otherwise assign the converted property schema and, when the parameter is
marked required, append its name to the required list. -/
def schemaParamStep (acc : List (String × PropOut) × List String)
    (param : Param) : List (String × PropOut) × List String :=
  match pyOptStr param.name with
  | none => acc
  | some pname =>
    if param.loc == some "query" || param.loc == some "path" then
      let pschema : PropOut :=
        { type := convertOpenapiType (param.type.getD "string"),
          descr := param.descr,
          enum := param.enum }
      (dset acc.1 pname pschema,
       if param.required then acc.2 ++ [pname] else acc.2)
    else acc

/-- `ToolGenerator._generate_input_schema`: credential properties plus the
operation's query/path parameters, and for collection queries, the injected
`fields`, `per_page`, `page` and `queryParams` properties (the injected
`fields` description is enriched from the resource schema when found). -/
def generateInputSchema (defs : List (String × SchemaDef))
    (operation : Operation) (isCollectionQuery : Bool)
    (resourceName : String) : InputSchema :=
  let start : List (String × PropOut) × List String :=
    (credentialProperties, ["host", "username", "password"])
  let step := operation.parameters.foldl schemaParamStep start
  let properties := step.1
  let required := step.2
  if isCollectionQuery then
    let fieldsDescription :=
      "Comma-separated list of field names to return (e.g., \x27id,name,health\x27)"
    let fieldsDescription :=
      if !resourceName.isEmpty then
        let schemaProperties := (resolveInstanceDef defs resourceName).properties
        if !schemaProperties.isEmpty then
          let fieldNames := sortedFieldNames schemaProperties
          let fieldsList := String.intercalate ", " (fieldNames.take MAX_FIELDS_DISPLAY)
          let fieldsList :=
            if fieldNames.length > MAX_FIELDS_DISPLAY then
              fieldsList ++ ", ... (" ++ toString fieldNames.length ++ " total)"
            else fieldsList
          "Comma-separated list of field names to return. Available fields: " ++ fieldsList
        else fieldsDescription
      else fieldsDescription
    let properties := dset properties "fields"
      { type := "string", descr := fieldsDescription }
    let properties := dset properties "per_page"
      { type := "integer", descr := "Maximum number of results per page (default: 2000)" }
    let properties := dset properties "page"
      { type := "integer", descr := "Page number for pagination (starts at 1)" }
    let properties := dset properties "queryParams"
      { type := "object",
        descr := "Additional query filters using Unity filter syntax (e.g., \x7b\x27filter\x27: \x27severity eq 4\x27, \x27compact\x27: \x27true\x27\x7d)",
        addProps := some "string" }
    { properties := properties, required := required }
  else
    { properties := properties, required := required }

/-- `ToolGenerator._generate_tool_from_operation` (the typed model has no
failing operations, so the `except`-and-skip branch is unreachable). -/
def generateToolFromOperation (defs : List (String × SchemaDef))
    (path method : String) (operation : Operation) (reg : Registry) :
    Tool × Registry :=
  let toolName := pyOrStr operation.operationId
    (generateToolNameFromPath path method)
  let (toolName, reg) := makeUniqueName toolName path reg
  let baseDescription := pyOrStr operation.summary
    (pyOrStr operation.descr (pyUpper method ++ " " ++ path))
  let isCollectionQuery := pyEndsWith path "/instances"
  let resourceName := getResourceNameFromPath path
  let description := buildEnhancedDescription defs baseDescription
    resourceName isCollectionQuery
  let inputSchema := generateInputSchema defs operation isCollectionQuery
    resourceName
  ({ name := toolName, descr := description, inputSchema := inputSchema }, reg)

/-- The `__init__` normalization of `allowed_methods`: a missing or empty
list falls back to `["GET"]`; methods are lower-cased. -/
def normalizeAllowedMethods (allowed : Option (List String)) : List String :=
  let l := match allowed with
    | some l => if l.isEmpty then ["GET"] else l
    | none => ["GET"]
  l.map pyLower

/-- `ToolGenerator.generate_tools`, with the `self.tool_names` registry
threaded explicitly: one tool per (path, allowed method) pair present in
the spec, in spec order. -/
def generateToolsFrom (spec : Spec) (allowedLower : List String)
    (reg : Registry) : List Tool × Registry :=
  let defs := spec.schemaDefinitions
  spec.paths.foldl
    (fun (acc : List Tool × Registry) pp =>
      allowedLower.foldl
        (fun (acc2 : List Tool × Registry) method =>
          match List.lookup method pp.2 with
          | some operation =>
            let r := generateToolFromOperation defs pp.1 method operation acc2.2
            (acc2.1 ++ [r.1], r.2)
          | none => acc2)
        acc)
    ([], reg)

/-- One full generation run: `ToolGenerator(spec, allowed_methods)` (which
initializes `self.tool_names` to the empty registry) followed by
`generate_tools()`. -/
def generatorRun (spec : Spec) (allowedMethods : Option (List String)) :
    List Tool :=
  (generateToolsFrom spec (normalizeAllowedMethods allowedMethods) []).1

/-! ## `unity_mcp/exceptions.py`: the API error hierarchy

Each constructor records the arguments the source passes when raising; the
derived functions below compute the `__name__`, `message`, `status_code`,
`details` and `__str__` of the corresponding exception object. -/

/-- The `UnityAPIError` subclasses the client raises. -/
inductive UnityErr where
  | authenticationError (host url method : String)
  | rateLimitError (retryAfter : Option Int)
  | apiResponseError (statusCode : Int) (responseBody : String)
      (url method : String) (params : Option (List (String × AVal)))
  | connectionError (host : String) (originalError : Option String)
      (customMessage : Option String)
deriving Repr

mutual

/-- Python `repr` of a modelled value (string escaping inside the repr is
not modelled; the inputs of interest contain no quotes). -/
def pyRepr : AVal → String
  | .none => "None"
  | .str s => "\x27" ++ s ++ "\x27"
  | .num n => toString n
  | .bool b => if b then "True" else "False"
  | .list xvs => "[" ++ pyReprItems xvs ++ "]"
  | .dict kvs => "\x7b" ++ pyReprEntries kvs ++ "\x7d"

/-- Comma-joined `repr`s of list items. -/
def pyReprItems : List AVal → String
  | [] => ""
  | [x] => pyRepr x
  | x :: rest => pyRepr x ++ ", " ++ pyReprItems rest

/-- Comma-joined `'key': repr(value)` renderings of dict entries. -/
def pyReprEntries : List (String × AVal) → String
  | [] => ""
  | [(k, v)] => "\x27" ++ k ++ "\x27: " ++ pyRepr v
  | (k, v) :: rest => "\x27" ++ k ++ "\x27: " ++ pyRepr v ++ ", " ++ pyReprEntries rest

end

/-- Python `str` of a modelled value. -/
def pyStrA : AVal → String
  | .str s => s
  | v => pyRepr v

/-- Lift an optional integer into a modelled value (`None` when absent). -/
def optIntAVal : Option Int → AVal
  | some n => .num n
  | none => .none

/-- Lift an optional string into a modelled value (`None` when absent). -/
def optStrAVal : Option String → AVal
  | some s => .str s
  | none => .none

/-- Lift an optional params dict into a modelled value (`None` when absent). -/
def optParamsAVal : Option (List (String × AVal)) → AVal
  | some l => .dict l
  | none => .none

/-- `type(e).__name__`. -/
def UnityErr.errName : UnityErr → String
  | .authenticationError .. => "AuthenticationError"
  | .rateLimitError .. => "RateLimitError"
  | .apiResponseError .. => "APIResponseError"
  | .connectionError .. => "ConnectionError"

/-- `e.status_code` (`AuthenticationError` fixes 401, `RateLimitError` 429,
`ConnectionError` passes none). -/
def UnityErr.statusCode : UnityErr → Option Int
  | .authenticationError .. => some 401
  | .rateLimitError .. => some 429
  | .apiResponseError status _ _ _ _ => some status
  | .connectionError .. => none

/-- `e.message` as built by each constructor. -/
def UnityErr.message : UnityErr → String
  | .authenticationError host _ _ => "Authentication failed for host: " ++ host
  | .rateLimitError ra =>
    let m := "API rate limit exceeded"
    (match ra with
     | some r => if r != 0 then m ++ ". Retry after " ++ toString r ++ " seconds." else m
     | none => m)
  | .apiResponseError status _ _ _ _ => "API request failed: " ++ toString status
  | .connectionError host orig custom =>
    let m := pyOrStr custom ("Failed to connect to Unity host: " ++ host)
    (match orig with
     | some o => m ++ " - " ++ o
     | none => m)

/-- `e.details` as merged through the constructor chain
(`UnityAPIError.__init__` prepends `status_code` and `response_body`). -/
def UnityErr.details : UnityErr → List (String × AVal)
  | .authenticationError host url method =>
    [ ("status_code", .num 401), ("response_body", .none),
      ("host", .str host), ("url", .str url), ("method", .str method) ]
  | .rateLimitError ra =>
    [ ("status_code", .num 429), ("response_body", .none),
      ("retry_after", optIntAVal ra) ]
  | .apiResponseError status body url method params =>
    [ ("status_code", .num status), ("response_body", .str body),
      ("url", .str url), ("method", .str method),
      ("params", optParamsAVal params) ]
  | .connectionError host orig _ =>
    [ ("status_code", .none), ("response_body", .none),
      ("host", .str host), ("original_error", optStrAVal orig) ]

/-- `UnityMCPError.__str__`: the message, with the details dict appended
when non-empty. -/
def UnityErr.pyStr (e : UnityErr) : String :=
  if e.details.isEmpty then e.message
  else e.message ++ " - Details: " ++ pyRepr (.dict e.details)

/-! ## `unity_mcp/api_client.py`: `execute_operation` -/

/-- What the HTTP layer does on one attempt: a network-level connection
failure, a timeout, another transient request error, or an HTTP response
with a status, a `Retry-After` value, a raw text body and its JSON
decoding (`none` models an empty body). -/
inductive NetOutcome where
  | connectError (msg : String)
  | timeout (msg : String)
  | requestError (msg : String)
  | response (status : Int) (retryAfter : Option Int) (text : String)
      (json : Option AVal)
deriving Repr

/-- Whether an attempt outcome is one of the retried transient errors. -/
def NetOutcome.isTransient : NetOutcome → Bool
  | .timeout _ => true
  | .requestError _ => true
  | _ => false

/-- The message of a transient outcome (`str(e)` of the httpx exception). -/
def NetOutcome.transientMsg : NetOutcome → Option String
  | .timeout m => some m
  | .requestError m => some m
  | _ => none

/-- Response-body handling of `execute_operation`: empty body → `\x7b\x7d`;
a dict with an `entries` key is unwrapped to that entry; anything else is
returned as decoded. -/
def parseResponseBody : Option AVal → AVal
  | .none => .dict []
  | some data =>
    match data with
    | .dict kvs =>
      (match List.lookup "entries" kvs with
       | some e => e
       | none => .dict kvs)
    | v => v

/-- `urljoin(f"https://\x7bhost\x7d", path)` for the path shapes at hand. -/
def urljoinHttps (host path : String) : String :=
  if path.isEmpty then "https://" ++ host
  else if pyStartsWith path "/" then "https://" ++ host ++ path
  else "https://" ++ host ++ "/" ++ path

/-- The retry loop of `UnityAPIClient.execute_operation` over the remaining
attempt numbers, carrying `last_error`. Alongside the result it returns the
trace of back-off sleeps (`2 ** attempt` seconds before each retry); an
exhausted attempt list yields the final `ConnectionError` wrapping the last
transient error. -/
def executeOperationGo (host url method : String)
    (params : Option (List (String × AVal))) (maxRetries : Nat)
    (net : Nat → NetOutcome) :
    List Nat → Option String → Except UnityErr AVal × List Nat
  | [], lastError =>
    (.error (.connectionError host lastError
      (some ("Request failed after " ++ toString maxRetries ++ " attempts"))), [])
  | attempt :: rest, _lastError =>
    match net attempt with
    | .response status retryAfter text json =>
      if status == 401 then
        (.error (.authenticationError host url method), [])
      else if status == 429 then
        (.error (.rateLimitError retryAfter), [])
      else if status ≥ 400 then
        (.error (.apiResponseError status text url method params), [])
      else
        (.ok (parseResponseBody json), [])
    | .connectError m => (.error (.connectionError host (some m) none), [])
    | .timeout m =>
      if rest.isEmpty then
        (.error (.connectionError host (some m)
          (some ("Request failed after " ++ toString maxRetries ++ " attempts"))), [])
      else
        let r := executeOperationGo host url method params maxRetries net rest (some m)
        (r.1, 2 ^ attempt :: r.2)
    | .requestError m =>
      if rest.isEmpty then
        (.error (.connectionError host (some m)
          (some ("Request failed after " ++ toString maxRetries ++ " attempts"))), [])
      else
        let r := executeOperationGo host url method params maxRetries net rest (some m)
        (r.1, 2 ^ attempt :: r.2)

/-- `UnityAPIClient.execute_operation`: run the attempts
`1, ..., max_retries` against the HTTP layer `net`. -/
def executeOperation (host : String) (maxRetries : Nat)
    (net : Nat → NetOutcome) (path method : String)
    (params : Option (List (String × AVal))) :
    Except UnityErr AVal × List Nat :=
  executeOperationGo host (urljoinHttps host path) method params maxRetries
    net (List.range' 1 maxRetries) none

/-! ## `unity_mcp/server.py`: the dispatcher (`_execute_tool`,
`_get_path_for_tool`) -/

/-- The protocol-level errors `_execute_tool` raises. -/
inductive ProtocolErr where
  | invalidToolArguments (toolName : String) (missingArgs : List String)
      (customMessage : Option String)
  | toolNotFound (toolName : String) (customMessage : Option String)
deriving Repr, DecidableEq

/-- The `error_details` dict built for an execution-level failure result. -/
structure ErrorDetails where
  error : String
  message : String
  tool : String
  statusCode : Option Int := none
  details : Option (List (String × AVal)) := none
deriving Repr

/-- The content of a `CallToolResult` (the dict that `json.dumps` would
serialize into the text payload). -/
inductive ResultContent where
  | success (data : AVal)
  | failure (d : ErrorDetails)
deriving Repr

/-- The MCP `CallToolResult` envelope. -/
structure CallToolResult where
  content : ResultContent
  isError : Bool
deriving Repr

/-- The `error_details` construction of the `except UnityAPIError` branch:
class name, `str(e)`, tool name, plus `status_code` and `details` when
truthy. -/
def mkErrorDetails (e : UnityErr) (toolName : String) : ErrorDetails :=
  { error := e.errName, message := e.pyStr, tool := toolName,
    statusCode :=
      (match e.statusCode with
       | some c => if c != 0 then some c else none
       | none => none),
    details := if e.details.isEmpty then none else some e.details }

/-- `UnityMCPServer._get_path_for_tool`: pass one matches `operationId`
exactly over the spec's GET operations; pass two matches
`operationId + "_"` as a prefix, or, for operations without an
`operationId`, the recomputed generated name exactly or as a `_`-prefix. -/
def getPathForTool (spec : Spec) (toolName : String) : Option String :=
  let pass1 := spec.paths.findSome? (fun pp =>
    match List.lookup "get" pp.2 with
    | some operation =>
      if operation.operationId == some toolName then some pp.1 else none
    | none => none)
  match pass1 with
  | some p => some p
  | none =>
    spec.paths.findSome? (fun pp =>
      match List.lookup "get" pp.2 with
      | some operation =>
        (match pyOptStr operation.operationId with
         | some oid =>
           if pyStartsWith toolName (oid ++ "_") then some pp.1 else none
         | none =>
           let generatedName := generateToolNameFromPath pp.1 "get"
           if toolName == generatedName ||
               pyStartsWith toolName (generatedName ++ "_") then some pp.1
           else none)
      | none => none)

/-- Truthiness of `arguments.get(k)`. -/
def optAValTruthy : Option AVal → Bool
  | some v => v.truthy
  | none => false

/-- The sequentially built `missing_creds` list of `_execute_tool`. -/
def missingCredsOf (args : List (String × AVal)) : List String :=
  (if !optAValTruthy (List.lookup "host" args) then ["host"] else []) ++
  (if !optAValTruthy (List.lookup "username" args) then ["username"] else []) ++
  (if !optAValTruthy (List.lookup "password" args) then ["password"] else [])

/-- `UnityMCPServer._execute_tool`: protocol errors are raised (`.error`),
execution outcomes — success or API failure — are returned (`.ok`) as a
`CallToolResult`. The HTTP layer is abstracted by `net`; the client is
constructed per call with the caller's credentials and issues a GET on the
resolved path with the filtered parameters. -/
def executeTool (tools : List Tool) (spec : Spec) (maxRetries : Nat)
    (net : Nat → NetOutcome) (name : String)
    (arguments : Option (List (String × AVal))) :
    Except ProtocolErr CallToolResult :=
  let argsTruthy := match arguments with
    | some l => !l.isEmpty
    | none => false
  if !argsTruthy then
    .error (.invalidToolArguments name ["host", "username", "password"] none)
  else
    let args := arguments.getD []
    let host := List.lookup "host" args
    let missingCreds := missingCredsOf args
    if !missingCreds.isEmpty then
      .error (.invalidToolArguments name missingCreds
        (some "Missing required credentials"))
    else
      match tools.find? (fun t => t.name == name) with
      | none => .error (.toolNotFound name none)
      | some _ =>
        match pyOptStr (getPathForTool spec name) with
        | none =>
          .error (.toolNotFound name
            (some ("Could not determine API path for tool: " ++ name)))
        | some path =>
          let apiParams := buildApiParams args
          let hostS := pyStrA (host.getD .none)
          let callResult := (executeOperation hostS maxRetries net path "GET"
            (if apiParams.isEmpty then none else some apiParams)).1
          match callResult with
          | .ok result => .ok { content := .success result, isError := false }
          | .error e =>
            .ok { content := .failure (mkErrorDetails e name), isError := true }

/-! ## Specification-side characterizations

These functions restate, directly from the specification's wording, what
certain parts of the generated artefacts should contain; the theorems below
compare them with the source embedding. -/

/-- The names of the operation parameters the spec marks required in query
or path position (skipping parameters with a falsy name, as the source
does). -/
def requiredParamNames (ps : List Param) : List String :=
  ps.filterMap (fun p =>
    match pyOptStr p.name with
    | some n =>
      if (p.loc == some "query" || p.loc == some "path") && p.required then
        some n
      else none
    | none => none)

/-- The names of all operation parameters in query or path position with a
truthy name — the parameters the schema loop adds as properties. -/
def declaredParamNames (ps : List Param) : List String :=
  ps.filterMap (fun p =>
    match pyOptStr p.name with
    | some n =>
      if p.loc == some "query" || p.loc == some "path" then some n else none
    | none => none)

/-- The four conventional properties injected for collection queries. -/
def collectionProps : List String :=
  ["fields", "per_page", "page", "queryParams"]

/-! ## Concrete instances used in the theorems below -/

/-- The tool-call argument mapping of the allowlist-filtering example in the
specification: credentials, one declared field, one unknown key, and a
nested `queryParams` filter. -/
def argsC1 : List (String × AVal) :=
  [ ("host", .str "h"), ("username", .str "u"), ("password", .str "p"),
    ("fields", .str "id,name"), ("unknownKey", .str "x"),
    ("queryParams", .dict [("filter", .str "severity eq 4")]) ]

/-- A GET operation carrying only an `operationId`. -/
def opFoo : Operation := { operationId := some "foo" }

/-- Three paths sharing the `operationId` `foo` and the same last two
non-parameter segments. -/
def specDupNames : Spec :=
  { paths := [ ("/x/a/b", [("get", opFoo)]),
               ("/y/a/b", [("get", opFoo)]),
               ("/z/a/b", [("get", opFoo)]) ] }

/-- A one-operation spec: GET `/alert/instances` with an `operationId`. -/
def specAlert : Spec :=
  { paths := [("/alert/instances",
      [("get", { operationId := some "alertCollectionQuery",
                 summary := some "Get alerts" })])] }

/-- The descriptor list generated from `specAlert`. -/
def toolsAlert : List Tool := generatorRun specAlert none

/-- A placeholder descriptor for total list access. -/
def emptyTool : Tool :=
  { name := "", descr := "", inputSchema := { properties := [], required := [] } }

/-- The single descriptor generated from `specAlert`. -/
def toolAlert : Tool := toolsAlert.headD emptyTool

/-- A complete credential bundle. -/
def credArgs : List (String × AVal) :=
  [("host", .str "h"), ("username", .str "u"), ("password", .str "p")]

/-- A credential bundle whose `password` is present but empty. -/
def argsEmptyPassword : List (String × AVal) :=
  [("host", .str "h"), ("username", .str "u"), ("password", .str "")]

/-- An HTTP layer that always answers 401 with an empty body. -/
def net401 : Nat → NetOutcome := fun _ => .response 401 none "" none

/-- An HTTP layer on which every attempt times out. -/
def netTimeoutAll : Nat → NetOutcome := fun _ => .timeout "request timed out"

/-- An HTTP layer on which every attempt fails to connect. -/
def netConnectAll : Nat → NetOutcome := fun _ => .connectError "connection refused"

/-- An operation declaring a required query parameter named `fields`. -/
def opRequiredFields : Operation :=
  { parameters := [{ name := some "fields", loc := some "query", required := true }] }

/-- A collection path whose operation itself declares `fields` as a required
query parameter. -/
def specRequiredFields : Spec :=
  { paths := [("/x/instances", [("get", opRequiredFields)])] }

/-- An operation declaring an optional query parameter named `fields`. -/
def opDeclaredFields : Operation :=
  { parameters := [{ name := some "fields", loc := some "query" }] }

/-- A non-collection path whose operation declares a query parameter named
`fields`. -/
def specNonCollectionFields : Spec :=
  { paths := [("/x", [("get", opDeclaredFields)])] }

/-- An argument mapping with a `None`-valued key that the `queryParams`
merge reintroduces with value `None`. -/
def argsNoneMerge : List (String × AVal) :=
  [("x", AVal.none), ("queryParams", .dict [("x", AVal.none)])]

/-! ## Helper lemmas on the dict model -/

theorem dkeys_cons {α : Type} (k : String) (v : α)
    (rest : List (String × α)) : dkeys ((k, v) :: rest) = k :: dkeys rest :=
  rfl

theorem mem_dkeys_dset {α : Type} (d : List (String × α)) (k k' : String)
    (v : α) : k' ∈ dkeys (dset d k v) ↔ k' = k ∨ k' ∈ dkeys d := by
  induction d with
  | nil => simp [dset, dkeys]
  | cons p rest ih =>
    obtain ⟨pk, pv⟩ := p
    by_cases h : pk = k
    · subst h
      have e : dset ((pk, pv) :: rest) pk v = (pk, v) :: rest := by
        simp [dset]
      rw [e, dkeys_cons, dkeys_cons, List.mem_cons]
      tauto
    · have hb : (pk == k) = false := by simp [h]
      have e : dset ((pk, pv) :: rest) k v = (pk, pv) :: dset rest k v := by
        simp [dset, hb]
      rw [e, dkeys_cons, dkeys_cons, List.mem_cons, List.mem_cons, ih]
      tauto

theorem mem_dkeys_dupdate {α : Type} (src base : List (String × α))
    (k : String) :
    k ∈ dkeys (dupdate base src) ↔ k ∈ dkeys base ∨ k ∈ dkeys src := by
  induction src generalizing base with
  | nil => simp [dupdate, dkeys]
  | cons p rest ih =>
    obtain ⟨pk, pv⟩ := p
    have e : dupdate base ((pk, pv) :: rest) = dupdate (dset base pk pv) rest :=
      rfl
    rw [e, ih, mem_dkeys_dset, dkeys_cons, List.mem_cons]
    tauto

/-! ## C1 -/

/-- C1: the specification claims the dispatcher builds the forwarded
parameter set by allowlisting the tool's own declared schema fields, so
that on the example arguments only `fields` and the merged `filter` remain.
The code of `_build_api_params` instead filters by the fixed
`EXCLUDED_PARAMS` denylist and never consults the tool schema, so the
unknown key `unknownKey` is forwarded to the API: the built set is
`fields, unknownKey, filter`. (The repository's own test suite imports
`CREDENTIAL_PARAMS` and calls `_build_api_params(arguments, tool)` with a
schema allowlist, which this code does not provide.) -/
theorem c1_denylist_keeps_unknown_key :
    buildApiParams argsC1 =
      [ ("fields", .str "id,name"), ("unknownKey", .str "x"),
        ("filter", .str "severity eq 4") ] ∧
    List.lookup "unknownKey" (buildApiParams argsC1) = some (.str "x") :=
  ⟨rfl, rfl⟩

/-! ## C2 -/

/-- C2: the generator does not guarantee pairwise-distinct tool names.
On a spec whose three GET operations share the `operationId` `foo` and
whose paths share their last two non-parameter segments, the run produces
`foo`, `foo_a_b`, `foo_a_b` — the suffixed name repeats, because the suffix
is derived from path segments that coincide and the suffixed name is never
recorded in the registry. -/
theorem c2_duplicate_tool_names :
    (generatorRun specDupNames none).map Tool.name =
      ["foo", "foo_a_b", "foo_a_b"] ∧
    ¬ ((generatorRun specDupNames none).map Tool.name).Nodup := by
  refine ⟨rfl, ?_⟩
  rw [show (generatorRun specDupNames none).map Tool.name =
    ["foo", "foo_a_b", "foo_a_b"] from rfl]
  decide

/-! ## C5 -/

/-- C5: one generation run — constructing the generator with a spec and
allowed methods (which initializes the `tool_names` registry empty) and
calling `generate_tools()` — is a deterministic function of the spec and
the allowed methods: equal inputs give equal descriptor lists, names,
schemas and order included. -/
theorem c5_generation_deterministic (s1 s2 : Spec)
    (m1 m2 : Option (List String)) (hs : s1 = s2) (hm : m1 = m2) :
    generatorRun s1 m1 = generatorRun s2 m2 := by
  subst hs; subst hm; rfl

/-- Witness for C5 at a concrete spec. -/
theorem c5_generation_deterministic_witness :
    generatorRun specAlert (some ["GET"]) =
      generatorRun specAlert (some ["GET"]) :=
  c5_generation_deterministic specAlert specAlert (some ["GET"])
    (some ["GET"]) rfl rfl

/-! ## C10 -/

/-- C10 counterexample: the claim says the built API parameter set omits
every key whose value is `None`. On `argsNoneMerge` the argument key `x`
has value `None`, yet the built set contains `x` — and with value `None` —
because the `queryParams` merge is applied without `None`-filtering. -/
theorem c10_counterexample :
    List.lookup "x" argsNoneMerge = some AVal.none ∧
    List.lookup "x" (buildApiParams argsNoneMerge) = some AVal.none :=
  ⟨rfl, rfl⟩

/-! ## Helper lemmas on the dispatcher's credential validation -/

theorem missingCredsOf_filter (args : List (String × AVal)) :
    missingCredsOf args =
      (["host", "username", "password"]).filter
        (fun c => !optAValTruthy (List.lookup c args)) := by
  by_cases h1 : optAValTruthy (List.lookup "host" args) <;>
  by_cases h2 : optAValTruthy (List.lookup "username" args) <;>
  by_cases h3 : optAValTruthy (List.lookup "password" args) <;>
  simp [missingCredsOf, h1, h2, h3]

theorem executeTool_missing_creds (tools : List Tool) (spec : Spec)
    (maxRetries : Nat) (net : Nat → NetOutcome) (name : String)
    (args : List (String × AVal)) (hne : args ≠ [])
    (hmiss : missingCredsOf args ≠ []) :
    executeTool tools spec maxRetries net name (some args) =
      .error (.invalidToolArguments name (missingCredsOf args)
        (some "Missing required credentials")) := by
  have hE : args.isEmpty = false := by
    cases args with
    | nil => exact absurd rfl hne
    | cons a l => rfl
  have hM : (missingCredsOf args).isEmpty = false := by
    cases hh : missingCredsOf args with
    | nil => exact absurd hh hmiss
    | cons a l => rfl
  simp [executeTool, hE, hM]

/-! ## C4 -/

/-- C4: an absent or empty argument mapping raises a protocol-level
`InvalidToolArgumentsError` whose missing list is exactly
`host, username, password`; a present mapping missing one or more
credentials raises the error naming exactly the falsy credentials, in
`host, username, password` order — in particular `\x7bhost: "h"\x7d`
yields exactly `["username", "password"]`. -/
theorem c4_missing_credentials_protocol_error (tools : List Tool)
    (spec : Spec) (maxRetries : Nat) (net : Nat → NetOutcome)
    (name : String) :
    (executeTool tools spec maxRetries net name none =
      .error (.invalidToolArguments name ["host", "username", "password"] none)) ∧
    (executeTool tools spec maxRetries net name (some []) =
      .error (.invalidToolArguments name ["host", "username", "password"] none)) ∧
    (∀ args : List (String × AVal), args ≠ [] → missingCredsOf args ≠ [] →
      executeTool tools spec maxRetries net name (some args) =
        .error (.invalidToolArguments name
          ((["host", "username", "password"]).filter
            (fun c => !optAValTruthy (List.lookup c args)))
          (some "Missing required credentials"))) ∧
    missingCredsOf [("host", .str "h")] = ["username", "password"] := by
  refine ⟨rfl, rfl, ?_, rfl⟩
  intro args hne hmiss
  rw [executeTool_missing_creds tools spec maxRetries net name args hne hmiss,
    missingCredsOf_filter]

/-- Witness for C4 at the concrete example of the claim. -/
theorem c4_missing_credentials_protocol_error_witness :
    executeTool [] {} 3 net401 "alertCollectionQuery"
        (some [("host", .str "h")]) =
      .error (.invalidToolArguments "alertCollectionQuery"
        ["username", "password"] (some "Missing required credentials")) := by
  have h := (c4_missing_credentials_protocol_error [] {} 3 net401
    "alertCollectionQuery").2.2.1 [("host", .str "h")]
    (List.cons_ne_nil _ _) (by decide)
  exact h

/-! ## C9 -/

/-- C9: a credential key that is present but bound to a falsy value (empty
string, zero, `False`, `None`, empty container) is treated as missing: the
dispatcher raises the protocol-level invalid-arguments error and that
credential appears in its missing list. -/
theorem c9_falsy_credential_treated_missing (tools : List Tool)
    (spec : Spec) (maxRetries : Nat) (net : Nat → NetOutcome)
    (name : String) (args : List (String × AVal)) (c : String) (v : AVal)
    (hne : args ≠ [])
    (hc : c = "host" ∨ c = "username" ∨ c = "password")
    (hlook : List.lookup c args = some v) (hfalsy : v.truthy = false) :
    ∃ missing msg,
      executeTool tools spec maxRetries net name (some args) =
          .error (.invalidToolArguments name missing msg) ∧
        c ∈ missing := by
  have hcmem : c ∈ missingCredsOf args := by
    rw [missingCredsOf_filter]
    apply List.mem_filter.mpr
    constructor
    · rcases hc with h | h | h <;> subst h <;> simp
    · simp [optAValTruthy, hlook, hfalsy]
  exact ⟨missingCredsOf args, some "Missing required credentials",
    executeTool_missing_creds tools spec maxRetries net name args hne
      (List.ne_nil_of_mem hcmem), hcmem⟩

/-- Witness for C9: an empty-string `password`. -/
theorem c9_falsy_credential_treated_missing_witness :
    ∃ missing msg,
      executeTool [] {} 3 net401 "t" (some argsEmptyPassword) =
          .error (.invalidToolArguments "t" missing msg) ∧
        "password" ∈ missing :=
  c9_falsy_credential_treated_missing [] {} 3 net401 "t" argsEmptyPassword
    "password" (.str "") (List.cons_ne_nil _ _) (Or.inr (Or.inr rfl)) rfl rfl

/-! ## C10 (amended) -/

theorem lookup_nodup_unique {α : Type} (args : List (String × α))
    (k : String) (v v' : α) (hnd : (dkeys args).Nodup)
    (hl : List.lookup k args = some v) (hm : (k, v') ∈ args) : v' = v := by
  induction args with
  | nil => cases hm
  | cons p rest ih =>
    obtain ⟨pk, pv⟩ := p
    rw [dkeys_cons] at hnd
    obtain ⟨hnotin, hnd'⟩ := List.nodup_cons.mp hnd
    rcases List.mem_cons.mp hm with hm' | hm'
    · obtain ⟨hk, hv⟩ := Prod.mk.injEq .. ▸ hm'
      subst hk
      have : (k == k) = true := by simp
      rw [List.lookup, this] at hl
      cases hl
      exact hv
    · by_cases hk : k = pk
      · subst hk
        exact absurd (List.mem_map_of_mem Prod.fst hm') hnotin
      · have hb : (k == pk) = false := by simp [hk]
        rw [List.lookup, hb] at hl
        exact ih hnd' hl hm'

theorem buildApiParamsLoop_aux (args : List (String × AVal))
    (acc : List (String × AVal)) (k : String)
    (hall : ∀ v, (k, v) ∈ args → v = AVal.none) (hacc : k ∉ dkeys acc) :
    k ∉ dkeys (args.foldl apiParamStep acc) := by
  induction args generalizing acc with
  | nil => exact hacc
  | cons p rest ih =>
    obtain ⟨pk, pv⟩ := p
    show k ∉ dkeys (rest.foldl apiParamStep (apiParamStep acc (pk, pv)))
    refine ih _ (fun v hv => hall v (List.mem_cons_of_mem _ hv)) ?_
    unfold apiParamStep
    by_cases hcond : (!(EXCLUDED_PARAMS.contains pk) && !pv.isNone) = true
    · rw [if_pos hcond, mem_dkeys_dset]
      rintro (hkk | hkacc)
      · subst hkk
        have hpv : pv = AVal.none := hall pv (List.mem_cons_self _ _)
        subst hpv
        simp [AVal.isNone] at hcond
      · exact hacc hkacc
    · rw [if_neg hcond]
      exact hacc

/-- C10 (amended): the copy loop of `_build_api_params` omits every
argument key whose value is `None`; a non-dict `queryParams` is ignored
entirely, leaving exactly the copy loop's output; and the `queryParams`
merge adds exactly the keys of the `queryParams` dict — without any
`None`-filtering, so merged entries may reintroduce `None`-valued keys
(the behavior the counterexample exhibits). -/
theorem c10_none_filtering_amended :
    (∀ (args : List (String × AVal)) (k : String), (dkeys args).Nodup →
      List.lookup k args = some AVal.none →
      k ∉ dkeys (buildApiParamsLoop args)) ∧
    (∀ (args : List (String × AVal)) (v : AVal),
      List.lookup "queryParams" args = some v → v.isDict = false →
      buildApiParams args = buildApiParamsLoop args) ∧
    (∀ (base src : List (String × AVal)) (k : String),
      k ∈ dkeys (dupdate base src) ↔ k ∈ dkeys base ∨ k ∈ dkeys src) := by
  refine ⟨?_, ?_, fun base src k => mem_dkeys_dupdate src base k⟩
  · intro args k hnd hl
    apply buildApiParamsLoop_aux args [] k
    · intro v hv
      exact lookup_nodup_unique args k AVal.none v hnd hl hv
    · simp [dkeys]
  · intro args v hl hdict
    unfold buildApiParams
    rw [hl]
    cases v with
    | dict kvs => simp [AVal.isDict] at hdict
    | none => rfl
    | str s => rfl
    | num n => rfl
    | bool b => rfl
    | list xvs => rfl

/-- Witness for C10's amended theorem: the copy loop drops the
`None`-valued key `x`. -/
theorem c10_none_filtering_amended_witness :
    "x" ∉ dkeys (buildApiParamsLoop [("x", AVal.none)]) :=
  c10_none_filtering_amended.1 [("x", AVal.none)] "x" (by decide) rfl

/-! ## Helper lemmas on the schema parameter loop -/

theorem schemaParamStep_skip (acc : List (String × PropOut) × List String)
    (p : Param) (hname : pyOptStr p.name = none) :
    schemaParamStep acc p = acc := by
  simp [schemaParamStep, hname]

theorem schemaParamStep_out (acc : List (String × PropOut) × List String)
    (p : Param) (n : String) (hname : pyOptStr p.name = some n) :
    schemaParamStep acc p =
      if (p.loc == some "query" || p.loc == some "path") = true then
        (dset acc.1 n
          { type := convertOpenapiType (p.type.getD "string"),
            descr := p.descr, enum := p.enum },
         if p.required then acc.2 ++ [n] else acc.2)
      else acc := by
  simp [schemaParamStep, hname]

theorem schemaFold_required (ps : List Param)
    (props : List (String × PropOut)) (req : List String) :
    (ps.foldl schemaParamStep (props, req)).2 = req ++ requiredParamNames ps := by
  induction ps generalizing props req with
  | nil => simp [requiredParamNames]
  | cons p rest ih =>
    show (rest.foldl schemaParamStep (schemaParamStep (props, req) p)).2 = _
    cases hname : pyOptStr p.name with
    | none =>
      rw [schemaParamStep_skip _ _ hname, ih]
      simp [requiredParamNames, hname]
    | some n =>
      rw [schemaParamStep_out _ _ _ hname]
      by_cases hloc : (p.loc == some "query" || p.loc == some "path") = true
      · have hloc' : p.loc = some "query" ∨ p.loc = some "path" := by
          simpa using hloc
        rw [if_pos hloc]
        by_cases hreq : p.required
        · simp only [hreq, if_true]
          rw [ih]
          simp [requiredParamNames, List.filterMap_cons, hname, hloc', hreq]
        · simp only [hreq, Bool.false_eq_true, if_false]
          rw [ih]
          simp [requiredParamNames, List.filterMap_cons, hname, hloc', hreq]
      · have hloc' : ¬(p.loc = some "query" ∨ p.loc = some "path") := by
          simpa using hloc
        rw [if_neg hloc, ih]
        simp [requiredParamNames, List.filterMap_cons, hname, hloc']

theorem schemaFold_mem_keys (ps : List Param)
    (props : List (String × PropOut)) (req : List String) (k : String) :
    k ∈ dkeys (ps.foldl schemaParamStep (props, req)).1 ↔
      k ∈ dkeys props ∨ k ∈ declaredParamNames ps := by
  induction ps generalizing props req with
  | nil => simp [declaredParamNames]
  | cons p rest ih =>
    show k ∈ dkeys (rest.foldl schemaParamStep (schemaParamStep (props, req) p)).1 ↔ _
    cases hname : pyOptStr p.name with
    | none =>
      rw [schemaParamStep_skip _ _ hname, ih]
      simp [declaredParamNames, hname]
    | some n =>
      rw [schemaParamStep_out _ _ _ hname]
      by_cases hloc : (p.loc == some "query" || p.loc == some "path") = true
      · have hloc' : p.loc = some "query" ∨ p.loc = some "path" := by
          simpa using hloc
        rw [if_pos hloc, ih, mem_dkeys_dset]
        simp [declaredParamNames, List.filterMap_cons, hname, hloc']
        tauto
      · have hloc' : ¬(p.loc = some "query" ∨ p.loc = some "path") := by
          simpa using hloc
        rw [if_neg hloc, ih]
        simp [declaredParamNames, List.filterMap_cons, hname, hloc']

/-- The generated descriptor's input schema is the input schema of the
operation, with the collection flag derived from the path suffix and the
resource name from the path. -/
theorem generateToolFromOperation_schema (defs : List (String × SchemaDef))
    (path method : String) (op : Operation) (reg : Registry) :
    (generateToolFromOperation defs path method op reg).1.inputSchema =
      generateInputSchema defs op (pyEndsWith path "/instances")
        (getResourceNameFromPath path) := by
  unfold generateToolFromOperation
  cases hmk : makeUniqueName
      (pyOrStr op.operationId (generateToolNameFromPath path method)) path reg with
  | mk a b => rfl

/-! ## C7 -/

/-- C7 counterexample: the claim also asserts that none of the four
injected collection properties ever appears in `required`; but an
operation that itself declares a required query parameter named `fields`
produces a required list containing `fields`. -/
theorem c7_counterexample :
    ((generatorRun specRequiredFields none).map
        (fun t => t.inputSchema.required)) =
      [["host", "username", "password", "fields"]] ∧
    "fields" ∈
      ((generatorRun specRequiredFields none).headD emptyTool).inputSchema.required :=
  ⟨rfl, by decide⟩

/-- C7 (amended): for every generated input schema, `required` is exactly
`host, username, password` followed by the names of the operation
parameters the spec marks required in query or path position, in
declaration order; the collection-property injection never adds to
`required` (the list does not depend on the collection flag), though a
parameter of the same name declared required by the spec does appear. -/
theorem c7_required_amended (defs : List (String × SchemaDef))
    (op : Operation) (isCol : Bool) (res : String) :
    (generateInputSchema defs op isCol res).required =
      ["host", "username", "password"] ++ requiredParamNames op.parameters := by
  have key := schemaFold_required op.parameters credentialProperties
    ["host", "username", "password"]
  cases isCol <;> simpa [generateInputSchema] using key

/-! ## C8 -/

/-- C8 counterexample: the claim asserts non-collection operations never
receive any of the four conventional properties; but a non-collection
operation that itself declares a query parameter named `fields` has
`fields` among its schema properties. -/
theorem c8_counterexample :
    pyEndsWith "/x" "/instances" = false ∧
    (generatorRun specNonCollectionFields none).map
        (fun t => dkeys t.inputSchema.properties) =
      [["host", "username", "password", "fields"]] :=
  ⟨rfl, rfl⟩

/-- C8 (amended): an operation is classified as a collection query iff its
path ends with `/instances`; every collection-classified operation's schema
contains all four conventional properties, and a non-collection operation
receives none of them through injection — one of the four appears in its
schema exactly when the operation itself declares a query/path parameter of
that name. -/
theorem c8_collection_injection_amended (defs : List (String × SchemaDef))
    (path method : String) (op : Operation) (reg : Registry) :
    (pyEndsWith path "/instances" = true →
      ∀ k ∈ collectionProps,
        k ∈ dkeys
          ((generateToolFromOperation defs path method op reg).1.inputSchema.properties)) ∧
    (pyEndsWith path "/instances" = false →
      ∀ k ∈ collectionProps,
        (k ∈ dkeys
            ((generateToolFromOperation defs path method op reg).1.inputSchema.properties) ↔
          k ∈ declaredParamNames op.parameters)) := by
  constructor
  · intro h k hk
    rw [generateToolFromOperation_schema, h]
    unfold generateInputSchema
    simp only [eq_self_iff_true, if_true]
    simp only [mem_dkeys_dset]
    simp only [collectionProps, List.mem_cons, List.not_mem_nil, or_false] at hk
    rcases hk with rfl | rfl | rfl | rfl <;> tauto
  · intro h k hk
    rw [generateToolFromOperation_schema, h]
    unfold generateInputSchema
    simp only [Bool.false_eq_true, if_false]
    rw [schemaFold_mem_keys]
    have hnc : k ∉ dkeys credentialProperties := by
      simp only [collectionProps, List.mem_cons, List.not_mem_nil, or_false] at hk
      rcases hk with rfl | rfl | rfl | rfl <;> decide
    simp [hnc]

/-- Witness for C8 at a collection and a non-collection operation. -/
theorem c8_collection_injection_amended_witness :
    "fields" ∈ dkeys
      ((generateToolFromOperation [] "/x/instances" "get" {} []).1.inputSchema.properties) ∧
    ("fields" ∈ dkeys
        ((generateToolFromOperation [] "/x" "get" opDeclaredFields []).1.inputSchema.properties) ↔
      "fields" ∈ declaredParamNames opDeclaredFields.parameters) :=
  ⟨(c8_collection_injection_amended [] "/x/instances" "get" {} []).1 rfl
      "fields" (by decide),
    (c8_collection_injection_amended [] "/x" "get" opDeclaredFields []).2 rfl
      "fields" (by decide)⟩

/-! ## Helper lemmas on the retry loop -/

theorem execGo_connect (host url method : String)
    (params : Option (List (String × AVal))) (maxRetries : Nat)
    (net : Nat → NetOutcome) (l1 l2 : List Nat) (k : Nat) (m : String)
    (last : Option String)
    (htr : ∀ j ∈ l1, (net j).isTransient = true)
    (hk : net k = .connectError m) :
    executeOperationGo host url method params maxRetries net
        (l1 ++ k :: l2) last =
      (.error (.connectionError host (some m) none),
       l1.map (fun a => 2 ^ a)) := by
  induction l1 generalizing last with
  | nil => simp [executeOperationGo, hk]
  | cons a rest ih =>
    have ha := htr a (List.mem_cons_self a rest)
    have hrest : ((rest ++ k :: l2).isEmpty) = false := by
      cases rest <;> rfl
    cases hna : net a with
    | connectError m2 => rw [hna] at ha; cases ha
    | response s r t j => rw [hna] at ha; cases ha
    | timeout m2 =>
      rw [List.cons_append]
      simp only [executeOperationGo, hna, hrest, Bool.false_eq_true, if_false]
      rw [ih (some m2) (fun j hj => htr j (List.mem_cons_of_mem _ hj))]
      simp
    | requestError m2 =>
      rw [List.cons_append]
      simp only [executeOperationGo, hna, hrest, Bool.false_eq_true, if_false]
      rw [ih (some m2) (fun j hj => htr j (List.mem_cons_of_mem _ hj))]
      simp

theorem execGo_all_transient (host url method : String)
    (params : Option (List (String × AVal))) (maxRetries : Nat)
    (net : Nat → NetOutcome) (l1 : List Nat) (k : Nat) (m : String)
    (last : Option String)
    (htr : ∀ j ∈ l1 ++ [k], (net j).isTransient = true)
    (hm : (net k).transientMsg = some m) :
    executeOperationGo host url method params maxRetries net
        (l1 ++ [k]) last =
      (.error (.connectionError host (some m)
        (some ("Request failed after " ++ toString maxRetries ++ " attempts"))),
       l1.map (fun a => 2 ^ a)) := by
  induction l1 generalizing last with
  | nil =>
    have hk := htr k (by simp)
    cases hna : net k with
    | connectError m2 => rw [hna] at hk; cases hk
    | response s r t j => rw [hna] at hk; cases hk
    | timeout m2 =>
      rw [hna] at hm
      simp only [NetOutcome.transientMsg, Option.some.injEq] at hm
      subst hm
      simp [executeOperationGo, hna]
    | requestError m2 =>
      rw [hna] at hm
      simp only [NetOutcome.transientMsg, Option.some.injEq] at hm
      subst hm
      simp [executeOperationGo, hna]
  | cons a rest ih =>
    have ha := htr a (List.mem_cons_self a _)
    have hrest : ((rest ++ [k]).isEmpty) = false := by
      cases rest <;> rfl
    cases hna : net a with
    | connectError m2 => rw [hna] at ha; cases ha
    | response s r t j => rw [hna] at ha; cases ha
    | timeout m2 =>
      rw [List.cons_append]
      simp only [executeOperationGo, hna, hrest, Bool.false_eq_true, if_false]
      rw [ih (some m2) (fun j hj => htr j (List.mem_cons_of_mem _ hj))]
      simp
    | requestError m2 =>
      rw [List.cons_append]
      simp only [executeOperationGo, hna, hrest, Bool.false_eq_true, if_false]
      rw [ih (some m2) (fun j hj => htr j (List.mem_cons_of_mem _ hj))]
      simp

/-! ## C6 -/

/-- C6: in `execute_operation`, a network-level connection failure on any
attempt (the earlier ones having been transient) raises the typed
`ConnectionError` immediately — no further retry, and only the back-off
sleeps of the earlier attempts (`2 ** attempt` seconds after attempt
`attempt`) have happened; if every one of the `max_retries` attempts fails
transiently (timeout or request error), the loop sleeps
`2^1, ..., 2^(max_retries-1)` between attempts and then raises a typed
`ConnectionError` wrapping the last transient error's message. -/
theorem c6_retry_backoff (host : String)
    (params : Option (List (String × AVal))) (maxRetries : Nat)
    (net : Nat → NetOutcome) (path method : String) :
    (∀ k m, 1 ≤ k → k ≤ maxRetries →
      (∀ j, 1 ≤ j → j < k → (net j).isTransient = true) →
      net k = .connectError m →
      executeOperation host maxRetries net path method params =
        (.error (.connectionError host (some m) none),
         (List.range' 1 (k - 1)).map (fun a => 2 ^ a))) ∧
    (∀ m, 1 ≤ maxRetries →
      (∀ j, 1 ≤ j → j ≤ maxRetries → (net j).isTransient = true) →
      (net maxRetries).transientMsg = some m →
      executeOperation host maxRetries net path method params =
        (.error (.connectionError host (some m)
          (some ("Request failed after " ++ toString maxRetries ++ " attempts"))),
         (List.range' 1 (maxRetries - 1)).map (fun a => 2 ^ a))) := by
  constructor
  · intro k m hk1 hkmr htr hnet
    obtain ⟨p, rfl⟩ : ∃ p, k = p + 1 :=
      ⟨k - 1, (Nat.succ_pred_eq_of_pos hk1).symm⟩
    obtain ⟨q, hq⟩ : ∃ q, maxRetries = (p + 1) + q :=
      ⟨maxRetries - (p + 1), (Nat.add_sub_cancel' hkmr).symm⟩
    have hsplit : List.range' 1 maxRetries =
        List.range' 1 p ++ (p + 1) :: List.range' (p + 2) q := by
      rw [hq]
      rw [show (p + 1) + q = (q + 1) + p by omega]
      rw [← List.range'_append 1 p (q + 1) 1]
      simp [List.range'_succ]
      omega
    unfold executeOperation
    rw [hsplit]
    rw [execGo_connect host (urljoinHttps host path) method params maxRetries
      net (List.range' 1 p) (List.range' (p + 2) q) (p + 1) m none ?_ hnet]
    · simp
    · intro j hj
      have hj' := List.mem_range'_1.mp hj
      exact htr j (by omega) (by omega)
  · intro m hmr htr hmsg
    obtain ⟨p, hp⟩ : ∃ p, maxRetries = p + 1 :=
      ⟨maxRetries - 1, (Nat.succ_pred_eq_of_pos hmr).symm⟩
    have hsplit : List.range' 1 maxRetries =
        List.range' 1 p ++ [maxRetries] := by
      rw [hp, List.range'_concat]
      simp
      omega
    unfold executeOperation
    rw [hsplit]
    rw [execGo_all_transient host (urljoinHttps host path) method params
      maxRetries net (List.range' 1 p) maxRetries m none ?_ hmsg]
    · simp [hp]
    · intro j hj
      rw [← hsplit] at hj
      have hj' := List.mem_range'_1.mp hj
      exact htr j (by omega) (by omega)

/-- Witness for C6: with three attempts, a first-attempt connection
failure is raised immediately with no sleeps, and an all-timeouts run
sleeps 2 and 4 seconds and raises the final wrapped `ConnectionError`. -/
theorem c6_retry_backoff_witness :
    (executeOperation "h" 3 netConnectAll "/x" "GET" none =
      (.error (.connectionError "h" (some "connection refused") none), [])) ∧
    (executeOperation "h" 3 netTimeoutAll "/x" "GET" none =
      (.error (.connectionError "h" (some "request timed out")
        (some "Request failed after 3 attempts")), [2, 4])) := by
  constructor
  · have h := (c6_retry_backoff "h" none 3 netConnectAll "/x" "GET").1 1
      "connection refused" (by decide) (by decide)
      (fun j h1 h2 => absurd (Nat.lt_of_lt_of_le h2 h1) (by omega)) rfl
    simpa using h
  · have h := (c6_retry_backoff "h" none 3 netTimeoutAll "/x" "GET").2
      "request timed out" (by decide) (fun j h1 h2 => rfl) rfl
    simpa using h

/-! ## C3 -/

/-- C3: when the remote system answers 401, the dispatcher's public call
entry point returns — rather than raises — an execution-level failure
result: `isError = true`, and the payload carries the error class name
`AuthenticationError`, the exception's message string, and status code 401.
The 401 turns into an `AuthenticationError` inside the client and is caught
by the dispatcher's `except UnityAPIError` branch. -/
theorem c3_remote_401_returned_not_raised (tools : List Tool) (spec : Spec)
    (maxRetries : Nat) (net : Nat → NetOutcome) (name : String)
    (args : List (String × AVal)) (t : Tool) (path : String)
    (ra : Option Int) (text : String) (json : Option AVal)
    (hargs : args ≠ [])
    (hcreds : missingCredsOf args = [])
    (hfind : tools.find? (fun t0 => t0.name == name) = some t)
    (hpath : pyOptStr (getPathForTool spec name) = some path)
    (hmr : 1 ≤ maxRetries)
    (hnet : net 1 = .response 401 ra text json) :
    executeTool tools spec maxRetries net name (some args) =
      .ok ⟨.failure (mkErrorDetails
          (.authenticationError
            (pyStrA ((List.lookup "host" args).getD AVal.none))
            (urljoinHttps (pyStrA ((List.lookup "host" args).getD AVal.none))
              path)
            "GET")
          name), true⟩ ∧
    (mkErrorDetails
        (.authenticationError
          (pyStrA ((List.lookup "host" args).getD AVal.none))
          (urljoinHttps (pyStrA ((List.lookup "host" args).getD AVal.none))
            path)
          "GET")
        name).error = "AuthenticationError" ∧
    (mkErrorDetails
        (.authenticationError
          (pyStrA ((List.lookup "host" args).getD AVal.none))
          (urljoinHttps (pyStrA ((List.lookup "host" args).getD AVal.none))
            path)
          "GET")
        name).statusCode = some 401 ∧
    (mkErrorDetails
        (.authenticationError
          (pyStrA ((List.lookup "host" args).getD AVal.none))
          (urljoinHttps (pyStrA ((List.lookup "host" args).getD AVal.none))
            path)
          "GET")
        name).message =
      (UnityErr.authenticationError
        (pyStrA ((List.lookup "host" args).getD AVal.none))
        (urljoinHttps (pyStrA ((List.lookup "host" args).getD AVal.none))
          path)
        "GET").pyStr := by
  have hE : args.isEmpty = false := by
    cases args with
    | nil => exact absurd rfl hargs
    | cons a l => rfl
  obtain ⟨mr, rfl⟩ : ∃ mr, maxRetries = mr + 1 :=
    ⟨maxRetries - 1, (Nat.succ_pred_eq_of_pos hmr).symm⟩
  refine ⟨?_, rfl, rfl, rfl⟩
  have hrange : List.range' 1 (mr + 1) = 1 :: List.range' 2 mr := rfl
  simp only [executeTool, hE, Bool.not_false, Bool.not_true, if_false,
    Option.getD_some, hcreds, List.isEmpty_nil, hfind, hpath,
    executeOperation, hrange, executeOperationGo, hnet]
  rfl

/-- Witness for C3: the one-tool `specAlert` catalog, full credentials and
an HTTP layer that always answers 401. -/
theorem c3_remote_401_returned_not_raised_witness :
    executeTool toolsAlert specAlert 3 net401 "alertCollectionQuery"
        (some credArgs) =
      .ok ⟨.failure (mkErrorDetails
          (.authenticationError "h" "https://h/alert/instances" "GET")
          "alertCollectionQuery"), true⟩ ∧
    (mkErrorDetails
        (.authenticationError "h" "https://h/alert/instances" "GET")
        "alertCollectionQuery").error = "AuthenticationError" ∧
    (mkErrorDetails
        (.authenticationError "h" "https://h/alert/instances" "GET")
        "alertCollectionQuery").statusCode = some 401 ∧
    (mkErrorDetails
        (.authenticationError "h" "https://h/alert/instances" "GET")
        "alertCollectionQuery").message =
      (UnityErr.authenticationError "h" "https://h/alert/instances"
        "GET").pyStr :=
  c3_remote_401_returned_not_raised toolsAlert specAlert 3 net401
    "alertCollectionQuery" credArgs toolAlert "/alert/instances"
    none "" none (List.cons_ne_nil _ _) rfl rfl rfl (by decide) rfl

end UnityMCP
